import Mathlib

/-!
Shallow embedding of the ur-ipmon IP monitor core
(src/pkg_src/src/config.c: `config.c` half and `monitor.c` half,
src/pkg_src/include/{config.h,monitor.h}, and the coordinator loop of `main.c`).

Conventions of the embedding:
* C `int` values that only ever hold small counters are modelled as `Nat`
  (the consecutive-failure counter is only ever reset to 0 or incremented);
  values that can be negative sentinels (`check_ip`'s return, `response_time_ms`)
  are modelled as `Int`.
* `time_t` timestamps are `Nat`.
* Nullable pointers become `Option`; fallible external calls (`stat`,
  `load_config`'s file I/O and JSON parsing, `pthread_create`, the `ping`
  subprocess) become oracle functions passed in as parameters, returning
  `Option`/`Bool`.
* C truncating division is `Int.tdiv`.
-/

namespace Ipmon

/-- Embedding of `IPStatus` from monitor.h. -/
inductive IPStatus where
  | STATUS_UNKNOWN
  | STATUS_UP
  | STATUS_DOWN
deriving DecidableEq, Repr

/-- Embedding of `IPConfig` from config.h. -/
structure IPConfig where
  ip_address : String
  interval : Nat
  is_active : Bool
  timeout : Int
deriving DecidableEq, Repr

/-- Embedding of `Config` from config.h. `ips`/`ip_count` become one list
(`ips = NULL` with `ip_count = 0` is the empty list); the nullable `filename`
is an `Option`. -/
structure Config where
  ips : List IPConfig
  default_interval : Nat
  default_timeout : Int
  filename : Option String
  last_modified : Nat
deriving DecidableEq, Repr

/-- Embedding of `MonitoredIP` from monitor.h. -/
structure MonitoredIP where
  ip_address : String
  status : IPStatus
  last_checked : Nat
  response_time_ms : Int
  failures : Nat
  is_active : Bool
  interval : Nat
  timeout : Int
deriving DecidableEq, Repr

/-- Embedding of `Monitor` from monitor.h (`ips`/`ip_count` as one list). -/
structure Monitor where
  ips : List MonitoredIP
  running : Bool
deriving DecidableEq, Repr

/-- `FAILED_THRESHOLD` from monitor.c. -/
def FAILED_THRESHOLD : Nat := 3

/-- Body of one iteration of `monitor_ip_thread` (monitor.c lines 379-402):
given the probe result `response_time` (the return of `check_ip`, `-1` on
failure) and the current time `now`, update the status record.  The code
first writes `last_checked` and `response_time_ms`, then on success sets
status UP and resets the failure counter, and on failure increments the
counter and sets status DOWN when the counter reaches `FAILED_THRESHOLD`. -/
def monitorStep (ip : MonitoredIP) (response_time : Int) (now : Nat) : MonitoredIP :=
  let ip1 : MonitoredIP := { ip with last_checked := now, response_time_ms := response_time }
  if 0 ≤ response_time then
    { ip1 with status := .STATUS_UP, failures := 0 }
  else
    let f := ip1.failures + 1
    if FAILED_THRESHOLD ≤ f then
      { ip1 with failures := f, status := .STATUS_DOWN }
    else
      { ip1 with failures := f }

/-- `k` consecutive failed probes applied to a record, the `j`-th one observed
at time `nows j` (each loop iteration with `check_ip` returning `-1`). -/
def runFailures (nows : Nat → Nat) : Nat → MonitoredIP → MonitoredIP
  | 0, ip => ip
  | k + 1, ip => monitorStep (runFailures nows k ip) (-1) (nows k)

theorem monitorStep_failures_of_neg (ip : MonitoredIP) (r : Int) (now : Nat)
    (hr : r < 0) : (monitorStep ip r now).failures = ip.failures + 1 := by
  unfold monitorStep
  simp only [not_le.mpr hr, if_false]
  split <;> rfl

theorem monitorStep_status_of_neg_lt (ip : MonitoredIP) (r : Int) (now : Nat)
    (hr : r < 0) (hf : ip.failures + 1 < FAILED_THRESHOLD) :
    (monitorStep ip r now).status = ip.status := by
  unfold monitorStep
  simp only [not_le.mpr hr, if_false]
  rw [if_neg (by omega)]

theorem monitorStep_status_of_neg_ge (ip : MonitoredIP) (r : Int) (now : Nat)
    (hr : r < 0) (hf : FAILED_THRESHOLD ≤ ip.failures + 1) :
    (monitorStep ip r now).status = .STATUS_DOWN := by
  unfold monitorStep
  simp only [not_le.mpr hr, if_false]
  rw [if_pos hf]

theorem runFailures_failures (nows : Nat → Nat) (k : Nat) (ip : MonitoredIP)
    (h0 : ip.failures = 0) : (runFailures nows k ip).failures = k := by
  induction k with
  | zero => simpa [runFailures]
  | succ n ih =>
      rw [runFailures, monitorStep_failures_of_neg _ _ _ (by norm_num), ih]

theorem runFailures_status (nows : Nat → Nat) (k : Nat) (ip : MonitoredIP)
    (h0 : ip.failures = 0) (hk : k < FAILED_THRESHOLD) :
    (runFailures nows k ip).status = ip.status := by
  induction k with
  | zero => rfl
  | succ n ih =>
      rw [runFailures, monitorStep_status_of_neg_lt _ _ _ (by norm_num)
            (by rw [runFailures_failures nows n ip h0]; omega),
          ih (by omega)]

/-- C1: the per-poll update of `monitor_ip_thread` satisfies the
failure-threshold state machine: a successful probe (`check_ip` result ≥ 0)
sets status UP and resets the failure counter regardless of prior state; a
failed probe increments the counter, sets status DOWN exactly when the
counter has reached the threshold 3, and leaves the status unchanged below
the threshold; and starting from a zero counter, `k` consecutive failures
leave the counter at `k`, with the status still the original one while
`k < 3`. -/
theorem C1_failure_threshold_state_machine
    (ip : MonitoredIP) (r : Int) (now : Nat) (nows : Nat → Nat) (k : Nat) :
    (0 ≤ r → (monitorStep ip r now).status = .STATUS_UP ∧
      (monitorStep ip r now).failures = 0) ∧
    (r < 0 → (monitorStep ip r now).failures = ip.failures + 1 ∧
      (3 ≤ ip.failures + 1 → (monitorStep ip r now).status = .STATUS_DOWN) ∧
      (ip.failures + 1 < 3 → (monitorStep ip r now).status = ip.status)) ∧
    (ip.failures = 0 → (runFailures nows k ip).failures = k ∧
      (k < 3 → (runFailures nows k ip).status = ip.status)) := by
  refine ⟨fun hr => ?_, fun hr => ?_, fun h0 => ?_⟩
  · constructor <;> · unfold monitorStep; rw [if_pos hr]
  · exact ⟨monitorStep_failures_of_neg ip r now hr,
      fun h3 => monitorStep_status_of_neg_ge ip r now hr h3,
      fun h3 => monitorStep_status_of_neg_lt ip r now hr h3⟩
  · exact ⟨runFailures_failures nows k ip h0,
      fun hk => runFailures_status nows k ip h0 hk⟩

/-- Timeout conversion inside `check_ip` (monitor.c line 320): the configured
millisecond timeout becomes the `-W` argument of the `ping` command as
`(timeout + 999) / 1000` in C `int` arithmetic (truncating division). -/
def ping_timeout_secs (timeout : Int) : Int := Int.tdiv (timeout + 999) 1000

/-- Embedding of `check_ip` (monitor.c lines 311-370).  The `ping` subprocess
is an oracle `ping : address → timeout-in-seconds → Option Nat`, returning
the round-trip time in ms on success and `none` on failure; `check_ip`
invokes it with the second-rounded timeout and returns the RTT, or `-1` on
failure. -/
def check_ip (ping : String → Int → Option Nat) (ip_address : String) (timeout : Int) : Int :=
  match ping ip_address (ping_timeout_secs timeout) with
  | some rtt => (rtt : Int)
  | none => -1

/-- Embedding of `config_has_changed` (config.c lines 214-232).  The
filesystem is the oracle `statMtime : filename → Option mtime` (`none` when
`stat` fails).  Returns true exactly when `stat` succeeds and the reported
mtime is strictly newer than `last_modified`. -/
def config_has_changed (statMtime : String → Option Nat) (config : Config) : Bool :=
  match config.filename with
  | none => false
  | some fn =>
    match statMtime fn with
    | none => false
    | some mtime => decide (config.last_modified < mtime)

/-- Embedding of `reload_config_if_changed` (config.c lines 234-256).
`loadConfig` is the oracle for `load_config` (file I/O plus JSON parsing;
`none` on any failure).  Returns the C function's boolean result together
with the configuration object `*config` points to afterwards. -/
def reload_config_if_changed (statMtime : String → Option Nat)
    (loadConfig : String → Option Config) (config : Config) : Bool × Config :=
  match config.filename with
  | none => (false, config)
  | some fn =>
    if config_has_changed statMtime config then
      match loadConfig fn with
      | none => (false, config)
      | some new_config => (true, new_config)
    else
      (false, config)

/-- Translation of one `IPConfig` entry into its initial `MonitoredIP`
record (init_monitor's loop body, monitor.c lines 432-441). -/
def init_record (ic : IPConfig) : MonitoredIP :=
  { ip_address := ic.ip_address, status := .STATUS_UNKNOWN, last_checked := 0,
    response_time_ms := -1, failures := 0, is_active := ic.is_active,
    interval := ic.interval, timeout := ic.timeout }

/-- Embedding of `init_monitor` (monitor.c lines 411-446): fails (returns
NULL) when the configuration has no IP entries (`ips == NULL` or
`ip_count <= 0`), otherwise builds one `STATUS_UNKNOWN` record per entry,
active or not, with `running = false`. -/
def init_monitor (config : Config) : Option Monitor :=
  if config.ips.isEmpty then none
  else some { ips := config.ips.map init_record, running := false }

/-- Thread-spawning loop of `start_monitoring` (monitor.c lines 477-504):
walks the records from index `i`, skips inactive ones, and calls
`pthread_create` (oracle `createOk`) for each active one; returns the list
of indices that got a polling thread, or `none` as soon as one
`pthread_create` fails (the C function then returns `-1`). -/
def spawn_tasks (createOk : Nat → Bool) : List MonitoredIP → Nat → Option (List Nat)
  | [], _ => some []
  | ip :: rest, i =>
    if ip.is_active then
      if createOk i then (spawn_tasks createOk rest (i + 1)).map (i :: ·)
      else none
    else
      spawn_tasks createOk rest (i + 1)

/-- Embedding of `start_monitoring` (monitor.c lines 463-508): fails on a
NULL monitor/`ips` or on a `pthread_create` failure, otherwise sets
`running := true` and returns the indices of the spawned polling threads. -/
def start_monitoring (createOk : Nat → Bool) (monitor : Monitor) :
    Option (Monitor × List Nat) :=
  match spawn_tasks createOk monitor.ips 0 with
  | none => none
  | some tasks => some ({ monitor with running := true }, tasks)

/-- Embedding of `stop_monitoring` (monitor.c lines 510-520): clears the
`running` flag (then sleeps one second before returning). -/
def stop_monitoring (monitor : Monitor) : Monitor :=
  { monitor with running := false }

/-- State owned by the main loop of main.c: the current configuration
(`g_config`) and the current engine (`g_monitor`). -/
structure CoordState where
  config : Config
  monitor : Monitor
deriving DecidableEq, Repr

/-- Outcome of one configuration-check tick of the main loop: either the
loop continues with (possibly new) state, or the process terminates via
`exit(code)`. -/
inductive TickResult where
  | cont (s : CoordState)
  | exited (code : Nat)
deriving DecidableEq, Repr

/-- EXIT_FAILURE. -/
def EXIT_FAILURE : Nat := 1

/-- Embedding of the configuration-check body of main.c's main loop (lines
135-156; identically src/pkg_src/spec/ur-ipmon-spec.c lines 94-108): run
`reload_config_if_changed`; if it reports a change, stop and free the old
engine, `init_monitor` on the new configuration and `start_monitoring` it —
and on failure of either, `exit(EXIT_FAILURE)`. -/
def coordinator_tick (statMtime : String → Option Nat)
    (loadConfig : String → Option Config) (createOk : Nat → Bool)
    (s : CoordState) : TickResult :=
  match reload_config_if_changed statMtime loadConfig s.config with
  | (false, c) => .cont { config := c, monitor := s.monitor }
  | (true, c) =>
    let _old := stop_monitoring s.monitor
    match init_monitor c with
    | none => .exited EXIT_FAILURE
    | some m =>
      match start_monitoring createOk m with
      | none => .exited EXIT_FAILURE
      | some (m2, _tasks) => .cont { config := c, monitor := m2 }

/-- Sample record used to evaluate the theorems on concrete inputs. -/
def sampleRecord : MonitoredIP :=
  { ip_address := "192.168.1.1", status := .STATUS_UNKNOWN, last_checked := 0,
    response_time_ms := -1, failures := 0, is_active := true,
    interval := 5, timeout := 1000 }

theorem C1_witness :
    (monitorStep { sampleRecord with status := .STATUS_DOWN, failures := 7 } 12 50).status
        = .STATUS_UP ∧
    (monitorStep { sampleRecord with failures := 2 } (-1) 50).status = .STATUS_DOWN ∧
    (runFailures (fun _ => 0) 2 sampleRecord).failures = 2 ∧
    (runFailures (fun _ => 0) 2 sampleRecord).status = .STATUS_UNKNOWN := by
  refine ⟨((C1_failure_threshold_state_machine _ 12 50 (fun _ => 0) 2).1
      (by norm_num)).1, ?_, ?_, ?_⟩
  · exact (((C1_failure_threshold_state_machine
      { sampleRecord with failures := 2 } (-1) 50 (fun _ => 0) 2).2.1
      (by norm_num)).2.1 (by norm_num))
  · exact ((C1_failure_threshold_state_machine sampleRecord (-1) 50
      (fun _ => 0) 2).2.2 rfl).1
  · exact ((C1_failure_threshold_state_machine sampleRecord (-1) 50
      (fun _ => 0) 2).2.2 rfl).2 (by norm_num)

/-- C truncating division agrees with Lean's Euclidean division on
nonnegative operands. -/
theorem tdiv_eq_ediv_of_nonneg (a b : Int) (ha : 0 ≤ a) (hb : 0 ≤ b) :
    Int.tdiv a b = a / b := by
  obtain ⟨m, rfl⟩ := Int.eq_ofNat_of_zero_le ha
  obtain ⟨n, rfl⟩ := Int.eq_ofNat_of_zero_le hb
  rfl

/-- C10: `check_ip` converts the configured millisecond timeout to whole
seconds as `(timeout + 999) / 1000` in integer arithmetic before passing it
to the probe; for every positive timeout this equals the ceiling of
`timeout / 1000` (characterized by `1000*(s-1) < timeout ≤ 1000*s`), so any
timeout below 1000 ms behaves as a full 1-second timeout. -/
theorem C10_timeout_rounds_up (t : Int) (ht : 0 < t)
    (ping : String → Int → Option Nat) (a : String) :
    ping_timeout_secs t = (t + 999) / 1000 ∧
    1000 * (ping_timeout_secs t - 1) < t ∧
    t ≤ 1000 * ping_timeout_secs t ∧
    (t < 1000 → ping_timeout_secs t = 1) ∧
    check_ip ping a t =
      (match ping a (ping_timeout_secs t) with
       | some rtt => (rtt : Int)
       | none => -1) := by
  have he : ping_timeout_secs t = (t + 999) / 1000 :=
    tdiv_eq_ediv_of_nonneg _ _ (by omega) (by omega)
  refine ⟨he, ?_, ?_, fun hlt => ?_, rfl⟩
  · rw [he]; omega
  · rw [he]; omega
  · rw [he]; omega

/-- Probe oracle that always fails, for concrete evaluation. -/
def pingFail : String → Int → Option Nat := fun _ _ => none

theorem C10_witness :
    ping_timeout_secs 500 = 1 ∧ check_ip pingFail "10.0.0.1" 500 = -1 := by
  have h := C10_timeout_rounds_up 500 (by norm_num) pingFail "10.0.0.1"
  exact ⟨h.2.2.2.1 (by norm_num), h.2.2.2.2⟩

/-- C9: when the configuration file cannot be stat'ed, `config_has_changed`
returns false, so `reload_config_if_changed` returns false leaving the
configuration unchanged, and the coordinator tick keeps the current engine
running untouched. -/
theorem C9_stat_failure_no_reload (statMtime : String → Option Nat)
    (loadConfig : String → Option Config) (createOk : Nat → Bool)
    (cfg : Config) (mon : Monitor) (fn : String)
    (hfn : cfg.filename = some fn) (hstat : statMtime fn = none) :
    config_has_changed statMtime cfg = false ∧
    reload_config_if_changed statMtime loadConfig cfg = (false, cfg) ∧
    coordinator_tick statMtime loadConfig createOk ⟨cfg, mon⟩ =
      .cont ⟨cfg, mon⟩ := by
  have hc : config_has_changed statMtime cfg = false := by
    simp [config_has_changed, hfn, hstat]
  have hr : reload_config_if_changed statMtime loadConfig cfg = (false, cfg) := by
    simp [reload_config_if_changed, hfn, hc]
  exact ⟨hc, hr, by simp [coordinator_tick, hr]⟩

/-- Sample IP entry for concrete evaluation. -/
def sampleIPConfig : IPConfig :=
  { ip_address := "192.168.1.1", interval := 5, is_active := true, timeout := 1000 }

/-- Sample configuration for concrete evaluation. -/
def sampleConfig : Config :=
  { ips := [sampleIPConfig], default_interval := 5, default_timeout := 1000,
    filename := some "config.json", last_modified := 100 }

/-- Sample running engine for concrete evaluation. -/
def sampleMonitor : Monitor :=
  { ips := [init_record sampleIPConfig], running := true }

/-- Stat oracle that always fails (file deleted). -/
def statGone : String → Option Nat := fun _ => none

/-- Load oracle that always fails (unparsable configuration). -/
def loadBad : String → Option Config := fun _ => none

/-- Thread-creation oracle that always succeeds. -/
def createAlways : Nat → Bool := fun _ => true

theorem C9_witness :
    config_has_changed statGone sampleConfig = false ∧
    coordinator_tick statGone loadBad createAlways ⟨sampleConfig, sampleMonitor⟩ =
      .cont ⟨sampleConfig, sampleMonitor⟩ := by
  have h := C9_stat_failure_no_reload statGone loadBad createAlways
    sampleConfig sampleMonitor "config.json" rfl rfl
  exact ⟨h.1, h.2.2⟩

/-- C8: if the configuration file's modification time has not advanced past
the one recorded at load time, `config_has_changed` and
`reload_config_if_changed` both return false, the `Config` object is
unchanged, and the coordinator tick leaves the engine untouched — no tasks
are restarted. -/
theorem C8_reload_idempotent (statMtime : String → Option Nat)
    (loadConfig : String → Option Config) (createOk : Nat → Bool)
    (cfg : Config) (mon : Monitor) (fn : String) (mtime : Nat)
    (hfn : cfg.filename = some fn) (hstat : statMtime fn = some mtime)
    (hm : mtime ≤ cfg.last_modified) :
    config_has_changed statMtime cfg = false ∧
    reload_config_if_changed statMtime loadConfig cfg = (false, cfg) ∧
    coordinator_tick statMtime loadConfig createOk ⟨cfg, mon⟩ =
      .cont ⟨cfg, mon⟩ := by
  have hc : config_has_changed statMtime cfg = false := by
    simp [config_has_changed, hfn, hstat]; omega
  have hr : reload_config_if_changed statMtime loadConfig cfg = (false, cfg) := by
    simp [reload_config_if_changed, hfn, hc]
  exact ⟨hc, hr, by simp [coordinator_tick, hr]⟩

/-- Stat oracle reporting an unchanged modification time (equal to
`sampleConfig.last_modified`). -/
def statSame : String → Option Nat := fun _ => some 100

theorem C8_witness :
    config_has_changed statSame sampleConfig = false ∧
    coordinator_tick statSame loadBad createAlways ⟨sampleConfig, sampleMonitor⟩ =
      .cont ⟨sampleConfig, sampleMonitor⟩ := by
  have h := C8_reload_idempotent statSame loadBad createAlways
    sampleConfig sampleMonitor "config.json" 100 rfl rfl (by norm_num [sampleConfig])
  exact ⟨h.1, h.2.2⟩

/-- C3: when a change is detected (the stat'ed mtime is newer) but loading
the new configuration fails, `reload_config_if_changed` returns false with
the configuration unchanged, and the coordinator tick keeps the current
engine running — no task is stopped. -/
theorem C3_load_failure_keeps_engine (statMtime : String → Option Nat)
    (loadConfig : String → Option Config) (createOk : Nat → Bool)
    (cfg : Config) (mon : Monitor) (fn : String) (mtime : Nat)
    (hfn : cfg.filename = some fn) (hstat : statMtime fn = some mtime)
    (hm : cfg.last_modified < mtime) (hload : loadConfig fn = none) :
    config_has_changed statMtime cfg = true ∧
    reload_config_if_changed statMtime loadConfig cfg = (false, cfg) ∧
    coordinator_tick statMtime loadConfig createOk ⟨cfg, mon⟩ =
      .cont ⟨cfg, mon⟩ := by
  have hc : config_has_changed statMtime cfg = true := by
    simp [config_has_changed, hfn, hstat]; omega
  have hr : reload_config_if_changed statMtime loadConfig cfg = (false, cfg) := by
    simp [reload_config_if_changed, hfn, hc, hload]
  exact ⟨hc, hr, by simp [coordinator_tick, hr]⟩

/-- Stat oracle reporting a newer modification time than
`sampleConfig.last_modified`. -/
def statNewer : String → Option Nat := fun _ => some 200

theorem C3_witness :
    config_has_changed statNewer sampleConfig = true ∧
    coordinator_tick statNewer loadBad createAlways ⟨sampleConfig, sampleMonitor⟩ =
      .cont ⟨sampleConfig, sampleMonitor⟩ := by
  have h := C3_load_failure_keeps_engine statNewer loadBad createAlways
    sampleConfig sampleMonitor "config.json" 200 rfl rfl (by norm_num [sampleConfig]) rfl
  exact ⟨h.1, h.2.2⟩

/-- Version-2 configuration produced by a successful reload. -/
def sampleConfigV2 : Config :=
  { ips := [sampleIPConfig], default_interval := 5, default_timeout := 1000,
    filename := some "config.json", last_modified := 200 }

/-- Load oracle that successfully yields `sampleConfigV2`. -/
def loadV2 : String → Option Config := fun _ => some sampleConfigV2

/-- Thread-creation oracle that always fails (`pthread_create` error). -/
def createNever : Nat → Bool := fun _ => false

/-- C2 counterexample: with a detected change, a successfully loaded new
registry, and a failing engine start (`pthread_create` fails), the
coordinator body of main.c terminates the process with `exit(EXIT_FAILURE)`
instead of reverting to a degraded empty engine. -/
theorem C2_counterexample :
    coordinator_tick statNewer loadV2 createNever ⟨sampleConfig, sampleMonitor⟩ =
      .exited EXIT_FAILURE := by
  rfl

/-- C2 amended: if the reload reports a change and either reinitializing or
starting the new Monitor Engine fails, the coordinator terminates the
process with `EXIT_FAILURE`; it does not degrade to an empty engine. -/
theorem C2_start_failure_exits (statMtime : String → Option Nat)
    (loadConfig : String → Option Config) (createOk : Nat → Bool)
    (cfg newCfg : Config) (mon : Monitor)
    (hreload : reload_config_if_changed statMtime loadConfig cfg = (true, newCfg))
    (hfail : init_monitor newCfg = none ∨
      ∃ m, init_monitor newCfg = some m ∧ start_monitoring createOk m = none) :
    coordinator_tick statMtime loadConfig createOk ⟨cfg, mon⟩ =
      .exited EXIT_FAILURE := by
  unfold coordinator_tick
  rw [hreload]
  rcases hfail with hnone | ⟨m, hm, hs⟩
  · simp [hnone]
  · simp [hm, hs]

theorem C2_witness :
    coordinator_tick statNewer loadV2 createNever ⟨sampleConfig, sampleMonitor⟩ =
      .exited EXIT_FAILURE :=
  C2_start_failure_exits statNewer loadV2 createNever
    sampleConfig sampleConfigV2 sampleMonitor rfl
    (Or.inr ⟨{ ips := [init_record sampleIPConfig], running := false }, rfl, rfl⟩)

/-- Configuration with zero targets (`ip_addresses` empty, so
`config->ips == NULL` and `ip_count == 0`). -/
def emptyConfig : Config :=
  { ips := [], default_interval := 5, default_timeout := 1000,
    filename := some "config.json", last_modified := 100 }

/-- C6 counterexample: on a registry with zero targets (hence zero active
targets), `init_monitor` fails (returns NULL) — the engine does not start
with an empty Status Registry, and callers treat this as fatal. -/
theorem C6_counterexample : init_monitor emptyConfig = none := by
  rfl

/-- Helper: when every record is inactive, the spawning loop of
`start_monitoring` creates no thread and succeeds. -/
theorem spawn_tasks_all_inactive (createOk : Nat → Bool) :
    ∀ (l : List MonitoredIP) (i : Nat), (∀ rec ∈ l, rec.is_active = false) →
      spawn_tasks createOk l i = some [] := by
  intro l
  induction l with
  | nil => intro i _; rfl
  | cons a t ih =>
      intro i hall
      have ha : a.is_active = false := hall a (List.mem_cons_self a t)
      simp only [spawn_tasks, ha, Bool.false_eq_true, if_false]
      exact ih (i + 1) (fun rec hr => hall rec (List.mem_cons_of_mem a hr))

/-- C6 amended: on a registry with at least one target but zero active
targets, `init_monitor` succeeds (the Status Registry holds one
`STATUS_UNKNOWN` record per target — it is not empty) and
`start_monitoring` returns success while creating no polling task; only a
registry with zero targets altogether makes `init_monitor` fail. -/
theorem C6_no_active_targets_not_fatal (cfg : Config) (createOk : Nat → Bool)
    (hne : cfg.ips ≠ []) (hall : ∀ ic ∈ cfg.ips, ic.is_active = false) :
    init_monitor cfg = some { ips := cfg.ips.map init_record, running := false } ∧
    start_monitoring createOk { ips := cfg.ips.map init_record, running := false } =
      some ({ ips := cfg.ips.map init_record, running := true }, []) ∧
    ∀ rec ∈ cfg.ips.map init_record, rec.status = .STATUS_UNKNOWN := by
  refine ⟨?_, ?_, ?_⟩
  · simp [init_monitor, hne]
  · have hspawn : spawn_tasks createOk (cfg.ips.map init_record) 0 = some [] := by
      refine spawn_tasks_all_inactive createOk _ 0 ?_
      intro rec hr
      obtain ⟨ic, hic, rfl⟩ := List.mem_map.mp hr
      exact hall ic hic
    simp [start_monitoring, hspawn]
  · intro rec hr
    obtain ⟨ic, _, rfl⟩ := List.mem_map.mp hr
    rfl

/-- Configuration whose single target is inactive (spec scenario 2). -/
def inactiveIPConfig : IPConfig :=
  { ip_address := "10.0.0.2", interval := 5, is_active := false, timeout := 1000 }

/-- Registry containing only the inactive target. -/
def configInactive : Config :=
  { ips := [inactiveIPConfig], default_interval := 5, default_timeout := 1000,
    filename := some "config.json", last_modified := 100 }

theorem C6_witness :
    init_monitor configInactive =
      some { ips := [init_record inactiveIPConfig], running := false } ∧
    start_monitoring createAlways { ips := [init_record inactiveIPConfig], running := false } =
      some ({ ips := [init_record inactiveIPConfig], running := true }, []) := by
  have h := C6_no_active_targets_not_fatal configInactive createAlways
    (by simp [configInactive]) (by intro ic hic; simp [configInactive] at hic; simp [hic, inactiveIPConfig])
  exact ⟨h.1, h.2.1⟩

/-- Helper: any index returned by the spawning loop names an active record
(`start_monitoring` skips inactive ones). -/
theorem spawn_tasks_mem_active (createOk : Nat → Bool) :
    ∀ (l : List MonitoredIP) (i : Nat) (ts : List Nat),
      spawn_tasks createOk l i = some ts → ∀ j ∈ ts,
        ∃ k, ∃ hk : k < l.length, j = i + k ∧ (l.get ⟨k, hk⟩).is_active = true := by
  intro l
  induction l with
  | nil =>
      intro i ts h j hj
      cases h
      exact absurd hj (List.not_mem_nil j)
  | cons a t ih =>
      intro i ts h j hj
      by_cases ha : a.is_active = true
      · simp only [spawn_tasks, ha, if_true] at h
        by_cases hc : createOk i = true
        · simp only [hc, if_true] at h
          cases hrest : spawn_tasks createOk t (i + 1) with
          | none => rw [hrest] at h; simp at h
          | some ts2 =>
              rw [hrest] at h
              simp only [Option.map_some', Option.some.injEq] at h
              subst h
              rcases List.mem_cons.mp hj with rfl | hj2
              · exact ⟨0, by simp, by omega, ha⟩
              · obtain ⟨k, hk, hjk, hact⟩ := ih (i + 1) ts2 hrest j hj2
                exact ⟨k + 1, by simpa using Nat.succ_lt_succ hk,
                  by omega, by simpa using hact⟩
        · simp [hc] at h
      · simp only [spawn_tasks, ha, if_false] at h
        obtain ⟨k, hk, hjk, hact⟩ := ih (i + 1) ts h j hj
        exact ⟨k + 1, by simpa using Nat.succ_lt_succ hk, by omega, by simpa using hact⟩

/-- Helper: with every `pthread_create` succeeding, the spawning loop
succeeds and creates exactly one thread per active record. -/
theorem spawn_tasks_all_ok_length :
    ∀ (l : List MonitoredIP) (i : Nat), ∃ ts,
      spawn_tasks (fun _ => true) l i = some ts ∧
      ts.length = (l.filter (fun rec => rec.is_active)).length := by
  intro l
  induction l with
  | nil => intro i; exact ⟨[], rfl, rfl⟩
  | cons a t ih =>
      intro i
      obtain ⟨ts, hts, hlen⟩ := ih (i + 1)
      by_cases ha : a.is_active = true
      · exact ⟨i :: ts, by simp [spawn_tasks, ha, hts], by simp [List.filter_cons, ha, hlen]⟩
      · exact ⟨ts, by simp [spawn_tasks, ha, hts], by simp [List.filter_cons, ha, hlen]⟩

/-- States of the Status Registry reachable from `a` when only the polling
tasks whose indices are in `ts` run: each step lets one such task apply a
probe result to its own record (the loop body of `monitor_ip_thread`). -/
inductive RegReaches (ts : List Nat) : List MonitoredIP → List MonitoredIP → Prop where
  | refl (l : List MonitoredIP) : RegReaches ts l l
  | step (a b : List MonitoredIP) (i : Nat) (r : Int) (now : Nat)
      (hi : i ∈ ts) (h : RegReaches ts a b) (hlen : i < b.length) :
      RegReaches ts a (b.set i (monitorStep (b.get ⟨i, hlen⟩) r now))

/-- Helper: a record whose index got no polling task is never written. -/
theorem regReaches_frozen (ts : List Nat) (a b : List MonitoredIP) (k : Nat)
    (hk : k ∉ ts) (h : RegReaches ts a b) : b[k]? = a[k]? := by
  induction h with
  | refl => rfl
  | step b2 i r now hi h2 hlen ih =>
      have hik : i ≠ k := fun he => hk (he ▸ hi)
      rw [List.getElem?_set_ne hik, ih]

/-- C7: from a registry with N targets of which A are active, a successful
`init_monitor` + `start_monitoring` yields a Status Registry containing one
record per target, every record `STATUS_UNKNOWN`, exactly A polling tasks
(each bound to an active record, none to an inactive one); and the record
of an inactive target is never written by any task, so it stays
`STATUS_UNKNOWN` forever. -/
theorem C7_one_task_per_active_target (cfg : Config) (m : Monitor)
    (hinit : init_monitor cfg = some m) :
    m.ips = cfg.ips.map init_record ∧
    m.ips.length = cfg.ips.length ∧
    (start_monitoring (fun _ => true) m).isSome = true ∧
    ∀ m2 ts, start_monitoring (fun _ => true) m = some (m2, ts) →
      m2 = { m with running := true } ∧
      ts.length = (cfg.ips.filter (fun ic => ic.is_active)).length ∧
      (∀ rec ∈ m2.ips, rec.status = .STATUS_UNKNOWN) ∧
      (∀ j ∈ ts, ∃ hj : j < m.ips.length, (m.ips.get ⟨j, hj⟩).is_active = true) ∧
      ∀ k, ∀ hk : k < m.ips.length, (m.ips.get ⟨k, hk⟩).is_active = false →
        k ∉ ts ∧
        (m.ips.get ⟨k, hk⟩).status = .STATUS_UNKNOWN ∧
        ∀ l2, RegReaches ts m.ips l2 → l2[k]? = some (m.ips.get ⟨k, hk⟩) := by
  have hm : m = { ips := cfg.ips.map init_record, running := false } := by
    unfold init_monitor at hinit
    split at hinit
    · exact absurd hinit (by simp)
    · exact (Option.some.injEq _ _).mp hinit.symm
  subst hm
  have hfl : ((cfg.ips.map init_record).filter (fun rec => rec.is_active)).length =
      (cfg.ips.filter (fun ic => ic.is_active)).length := by
    rw [List.filter_map]
    simp only [List.length_map]
    congr 1
  have hunk : ∀ rec ∈ cfg.ips.map init_record, rec.status = .STATUS_UNKNOWN := by
    intro rec hr
    obtain ⟨ic, _, rfl⟩ := List.mem_map.mp hr
    rfl
  obtain ⟨ts0, hts0, hlen0⟩ := spawn_tasks_all_ok_length (cfg.ips.map init_record) 0
  refine ⟨rfl, by simp, ?_, ?_⟩
  · simp [start_monitoring, hts0]
  · intro m2 ts h
    unfold start_monitoring at h
    rw [hts0] at h
    simp only [Option.some.injEq, Prod.mk.injEq] at h
    obtain ⟨hm2, hts⟩ := h
    subst hts
    refine ⟨hm2.symm, by rw [hlen0, hfl], ?_, ?_, ?_⟩
    · intro rec hr
      rw [← hm2] at hr
      exact hunk rec hr
    · intro j hj
      obtain ⟨k, hk, hjk, hact⟩ :=
        spawn_tasks_mem_active (fun _ => true) (cfg.ips.map init_record) 0 ts0 hts0 j hj
      have hj0 : j = k := by omega
      subst hj0
      exact ⟨hk, hact⟩
    · intro k hk hina
      have hnot : k ∉ ts0 := by
        intro hmem
        obtain ⟨k2, hk2, hjk, hact⟩ :=
          spawn_tasks_mem_active (fun _ => true) (cfg.ips.map init_record) 0 ts0 hts0 k hmem
        have : k = k2 := by omega
        subst this
        rw [hact] at hina
        exact Bool.true_eq_false.mp hina
      refine ⟨hnot, ?_, ?_⟩
      · exact hunk _ (List.get_mem _ _ hk)
      · intro l2 hl2
        rw [regReaches_frozen ts0 _ l2 k hnot hl2]
        exact List.getElem?_eq_getElem hk

/-- Registry with one active and one inactive target, for concrete
evaluation of C7. -/
def mixedConfig : Config :=
  { ips := [sampleIPConfig, inactiveIPConfig], default_interval := 5,
    default_timeout := 1000, filename := some "config.json", last_modified := 100 }

/-- Initialized engine for `mixedConfig`. -/
def mMixed : Monitor :=
  { ips := [init_record sampleIPConfig, init_record inactiveIPConfig], running := false }

theorem C7_witness :
    start_monitoring (fun _ => true) mMixed =
      some ({ mMixed with running := true }, [0]) ∧
    ([0] : List Nat).length =
      (mixedConfig.ips.filter (fun ic => ic.is_active)).length ∧
    (1 : Nat) ∉ ([0] : List Nat) := by
  have h := C7_one_task_per_active_target mixedConfig mMixed rfl
  have h2 := h.2.2.2 { mMixed with running := true } [0] rfl
  exact ⟨rfl, h2.2.1, (h2.2.2.2.2 1 (by simp [mMixed]) rfl).1⟩

/-- Program counter of `monitor_ip_thread`: at the `while` condition check,
with a probe in flight (`check_ip` running, its result not yet written), in
the `sleep(ip->interval)` call, or exited. -/
inductive PC where
  | checkRunning
  | probing
  | sleeping
  | done
deriving DecidableEq, Repr

/-- Joint state of one polling thread (`monitor_ip_thread`), the
`monitor->running` flag, and the environment events it reacts to.
`stopReturned` records that `stop_monitoring` has returned to its caller
(it clears `running`, sleeps one second, and returns — the polling threads
are detached and never joined). `paused` records that the thread has been
marked paused in Task-Manager bookkeeping; since `monitor_ip_thread` calls
no checkpoint, nothing in its code consults this flag.
`writesAfterStop` counts Status-Record writes performed after
`stop_monitoring` returned, and `probesAfterPause` counts probes completed
while marked paused. -/
structure PollState where
  pc : PC
  running : Bool
  stopReturned : Bool
  paused : Bool
  record : MonitoredIP
  writesAfterStop : Nat
  probesAfterPause : Nat
deriving DecidableEq, Repr

/-- Interleaved small-step semantics of one polling thread together with the
stop/pause events. Thread steps follow `monitor_ip_thread` line by line:
the loop runs while `monitor->running && ip->is_active`; one iteration
probes (`check_ip`), writes the Status Record (`monitorStep`), then sleeps.
`stop_return` is `stop_monitoring` completing (flag cleared, grace second
elapsed): it is one event here, which is sound for exhibiting traces
because a probe may take longer than the one-second grace (its timeout is
the configured one, e.g. 5000 ms). `pause_mark` is a pause request taking
effect in Task-Manager bookkeeping. -/
inductive PollStep : PollState → PollState → Prop where
  | loop_enter (s : PollState) (h : s.pc = .checkRunning)
      (hr : s.running = true) (ha : s.record.is_active = true) :
      PollStep s { s with pc := .probing }
  | loop_exit (s : PollState) (h : s.pc = .checkRunning)
      (hr : s.running = false ∨ s.record.is_active = false) :
      PollStep s { s with pc := .done }
  | probe_complete (s : PollState) (r : Int) (now : Nat) (h : s.pc = .probing) :
      PollStep s { s with
                    pc := .sleeping,
                    record := monitorStep s.record r now,
                    writesAfterStop := s.writesAfterStop + (if s.stopReturned then 1 else 0),
                    probesAfterPause := s.probesAfterPause + (if s.paused then 1 else 0) }
  | wake (s : PollState) (h : s.pc = .sleeping) :
      PollStep s { s with pc := .checkRunning }
  | stop_return (s : PollState) (h : s.stopReturned = false) :
      PollStep s { s with running := false, stopReturned := true }
  | pause_mark (s : PollState) (h : s.paused = false) :
      PollStep s { s with paused := true }

/-- Reachability in the interleaved semantics. -/
def PollReach : PollState → PollState → Prop := Relation.ReflTransGen PollStep

/-- Initial state of a polling thread for an active target, nothing stopped
or paused yet. -/
def pollInit : PollState :=
  { pc := .checkRunning, running := true, stopReturned := false, paused := false,
    record := sampleRecord, writesAfterStop := 0, probesAfterPause := 0 }

/-- State reached after: loop check passes, `stop_monitoring` runs to
completion while the probe is in flight, then the probe result is written. -/
def pollAfterLateWrite : PollState :=
  { pc := .sleeping, running := false, stopReturned := true, paused := false,
    record := monitorStep sampleRecord (-1) 7, writesAfterStop := 1,
    probesAfterPause := 0 }

/-- C4 counterexample: an execution in which `stop_monitoring` is requested
and returns while a probe is in flight, after which the polling thread
still writes its Status Record — one write lands after `stop` returned, so
"after stop returns, no polling task performs any further write" is false
of the code (the thread is detached; stop only clears a flag and sleeps one
second, while the in-flight `check_ip` may outlast that grace period). -/
theorem C4_counterexample :
    PollReach pollInit pollAfterLateWrite ∧
    pollAfterLateWrite.stopReturned = true ∧
    pollAfterLateWrite.writesAfterStop = 1 := by
  refine ⟨?_, rfl, rfl⟩
  refine Relation.ReflTransGen.head (PollStep.loop_enter pollInit rfl rfl rfl) ?_
  refine Relation.ReflTransGen.head (PollStep.stop_return _ rfl) ?_
  refine Relation.ReflTransGen.head (PollStep.probe_complete _ (-1) 7 rfl) ?_
  exact Relation.ReflTransGen.refl

/-- Number of Status-Record writes the thread can still perform from a
given program point: one when a probe is in flight, none otherwise. -/
def writePotential : PC → Nat
  | .probing => 1
  | _ => 0

/-- Helper: single steps taken after `running` has been cleared never
increase `writesAfterStop + writePotential pc`, and `running` stays
cleared. -/
theorem pollStep_stopped_bound (s t : PollState) (hst : PollStep s t)
    (hr : s.running = false) :
    t.running = false ∧
    t.writesAfterStop + writePotential t.pc ≤
      s.writesAfterStop + writePotential s.pc := by
  cases hst with
  | loop_enter h hrun ha => rw [hr] at hrun; exact absurd hrun (by simp)
  | loop_exit h hrun => exact ⟨hr, by simp [writePotential, h]⟩
  | probe_complete r now h =>
      refine ⟨hr, ?_⟩
      simp only [writePotential, h]
      split <;> omega
  | wake h => exact ⟨hr, by simp [writePotential, h]⟩
  | stop_return h => exact ⟨rfl, le_refl _⟩
  | pause_mark h => exact ⟨hr, le_refl _⟩

/-- Helper: multi-step version of `pollStep_stopped_bound`. -/
theorem pollReach_stopped_bound (s t : PollState) (h : PollReach s t)
    (hr : s.running = false) :
    t.running = false ∧
    t.writesAfterStop + writePotential t.pc ≤
      s.writesAfterStop + writePotential s.pc := by
  induction h with
  | refl => exact ⟨hr, le_refl _⟩
  | tail h1 hstep ih =>
      obtain ⟨hrun, hle⟩ := ih
      obtain ⟨hrun2, hle2⟩ := pollStep_stopped_bound _ _ hstep hrun
      exact ⟨hrun2, le_trans hle2 hle⟩

/-- Helper: once `running` is cleared, a thread at the loop check, asleep,
or exited never touches its record again and never re-enters the loop. -/
theorem pollStep_idle_frozen (s t : PollState) (hst : PollStep s t)
    (hr : s.running = false)
    (hpc : s.pc = .checkRunning ∨ s.pc = .sleeping ∨ s.pc = .done) :
    t.record = s.record ∧ t.running = false ∧
    (t.pc = .checkRunning ∨ t.pc = .sleeping ∨ t.pc = .done) := by
  cases hst with
  | loop_enter h hrun ha => rw [hr] at hrun; exact absurd hrun (by simp)
  | loop_exit h hrun => exact ⟨rfl, hr, Or.inr (Or.inr rfl)⟩
  | probe_complete r now h => rw [h] at hpc; simp at hpc
  | wake h => exact ⟨rfl, hr, Or.inl rfl⟩
  | stop_return h => exact ⟨rfl, rfl, hpc⟩
  | pause_mark h => exact ⟨rfl, hr, hpc⟩

/-- Helper: multi-step version of `pollStep_idle_frozen`. -/
theorem pollReach_idle_frozen (s t : PollState) (h : PollReach s t)
    (hr : s.running = false)
    (hpc : s.pc = .checkRunning ∨ s.pc = .sleeping ∨ s.pc = .done) :
    t.record = s.record := by
  have hinv : t.record = s.record ∧ t.running = false ∧
      (t.pc = .checkRunning ∨ t.pc = .sleeping ∨ t.pc = .done) := by
    induction h with
    | refl => exact ⟨rfl, hr, hpc⟩
    | tail h1 hstep ih =>
        obtain ⟨hrec, hrun, hp⟩ := ih
        obtain ⟨hrec2, hrun2, hp2⟩ := pollStep_idle_frozen _ _ hstep hrun hp
        exact ⟨hrec2.trans hrec, hrun2, hp2⟩
  exact hinv.1

/-- C4 amended: once `stop_monitoring` has cleared the `running` flag, a
polling thread performs at most one further Status-Record write (the probe
already in flight at that moment), and a thread at its loop check, mid-sleep,
or exited writes nothing more. The code does not bound this within the stop
grace period: the interval sleep is not woken early and an in-flight
probe's write may land after `stop_monitoring` returns (see the
counterexample). -/
theorem C4_stop_bounds_further_writes (s t : PollState) (h : PollReach s t)
    (hr : s.running = false) :
    t.writesAfterStop ≤ s.writesAfterStop + writePotential s.pc ∧
    ((s.pc = .checkRunning ∨ s.pc = .sleeping ∨ s.pc = .done) →
      t.record = s.record) := by
  refine ⟨?_, fun hpc => pollReach_idle_frozen s t h hr hpc⟩
  have hb := pollReach_stopped_bound s t h hr
  omega

/-- State of a thread that was mid-sleep when `stop_monitoring` returned. -/
def pollStoppedAsleep : PollState :=
  { pc := .sleeping, running := false, stopReturned := true, paused := false,
    record := monitorStep sampleRecord 12 3, writesAfterStop := 0,
    probesAfterPause := 0 }

/-- Exit state reached from `pollStoppedAsleep`: wake from the interval
sleep, observe `running == false`, leave the loop. -/
def pollExited : PollState :=
  { pollStoppedAsleep with pc := .done }

theorem C4_witness :
    pollExited.writesAfterStop ≤
      pollStoppedAsleep.writesAfterStop + writePotential pollStoppedAsleep.pc ∧
    pollExited.record = pollStoppedAsleep.record := by
  have hreach : PollReach pollStoppedAsleep pollExited := by
    refine Relation.ReflTransGen.head (PollStep.wake pollStoppedAsleep rfl) ?_
    refine Relation.ReflTransGen.head (PollStep.loop_exit _ rfl (Or.inl rfl)) ?_
    exact Relation.ReflTransGen.refl
  have h := C4_stop_bounds_further_writes pollStoppedAsleep pollExited hreach rfl
  exact ⟨h.1, h.2 (Or.inr (Or.inl rfl))⟩

/-- State reached from `pollInit` after: pause is requested and marked, the
loop check passes, and a probe completes — a probe issued and applied while
the task was paused. -/
def pollProbedWhilePaused : PollState :=
  { pc := .sleeping, running := true, stopReturned := false, paused := true,
    record := monitorStep sampleRecord 5 9, writesAfterStop := 0,
    probesAfterPause := 1 }

/-- C5 counterexample: `monitor_ip_thread` contains no Task Manager
checkpoint, so after a pause is marked the thread still enters the loop,
probes, and applies the result — an execution reaches a state where the
task is paused yet has completed a probe after the pause, so "once
pause(id) returns, that task issues no further probes" is false of the
code. -/
theorem C5_counterexample :
    PollReach pollInit pollProbedWhilePaused ∧
    pollProbedWhilePaused.paused = true ∧
    pollProbedWhilePaused.probesAfterPause = 1 := by
  refine ⟨?_, rfl, rfl⟩
  refine Relation.ReflTransGen.head (PollStep.pause_mark pollInit rfl) ?_
  refine Relation.ReflTransGen.head (PollStep.loop_enter _ rfl rfl rfl) ?_
  refine Relation.ReflTransGen.head (PollStep.probe_complete _ 5 9 rfl) ?_
  exact Relation.ReflTransGen.refl

/-- Helper: the record update of `monitorStep` never changes `is_active`. -/
theorem monitorStep_is_active (ip : MonitoredIP) (r : Int) (now : Nat) :
    (monitorStep ip r now).is_active = ip.is_active := by
  by_cases h1 : 0 ≤ r
  · simp [monitorStep, h1]
  · by_cases h2 : FAILED_THRESHOLD ≤ ip.failures + 1
    · simp [monitorStep, h1, h2]
    · simp [monitorStep, h1, h2]

/-- C5 amended: the polling loop of `monitor_ip_thread` performs no Task
Manager checkpoint (the polling threads are raw detached pthreads; only the
coordinator and heartbeat loops call `thread_check_pause`), so marking the
task paused does not inhibit it: from any paused state at the loop check of
an active, running monitor, the thread goes on to complete arbitrarily many
further probes while still paused. -/
theorem C5_no_checkpoint_in_polling_loop (s : PollState) (n : Nat)
    (hpc : s.pc = .checkRunning) (hr : s.running = true)
    (ha : s.record.is_active = true) (hp : s.paused = true) :
    ∃ t, PollReach s t ∧ t.paused = true ∧
      s.probesAfterPause + n ≤ t.probesAfterPause := by
  induction n generalizing s with
  | zero => exact ⟨s, Relation.ReflTransGen.refl, hp, le_refl _⟩
  | succ n ih =>
      have hstep1 : PollStep s { s with pc := .probing } :=
        PollStep.loop_enter s hpc hr ha
      have hstep2 : PollStep { s with pc := .probing }
          { s with
              pc := .sleeping,
              record := monitorStep s.record 0 0,
              writesAfterStop := s.writesAfterStop + (if s.stopReturned then 1 else 0),
              probesAfterPause := s.probesAfterPause + (if s.paused then 1 else 0) } :=
        PollStep.probe_complete _ 0 0 rfl
      have hstep3 : PollStep
          { s with
              pc := .sleeping,
              record := monitorStep s.record 0 0,
              writesAfterStop := s.writesAfterStop + (if s.stopReturned then 1 else 0),
              probesAfterPause := s.probesAfterPause + (if s.paused then 1 else 0) }
          { s with
              pc := .checkRunning,
              record := monitorStep s.record 0 0,
              writesAfterStop := s.writesAfterStop + (if s.stopReturned then 1 else 0),
              probesAfterPause := s.probesAfterPause + (if s.paused then 1 else 0) } :=
        PollStep.wake _ rfl
      obtain ⟨t, hreach, htp, htn⟩ := ih
        { s with
            pc := .checkRunning,
            record := monitorStep s.record 0 0,
            writesAfterStop := s.writesAfterStop + (if s.stopReturned then 1 else 0),
            probesAfterPause := s.probesAfterPause + (if s.paused then 1 else 0) }
        rfl hr (by simpa [monitorStep_is_active] using ha) hp
      refine ⟨t, ?_, htp, ?_⟩
      · exact Relation.ReflTransGen.head hstep1
          (Relation.ReflTransGen.head hstep2
            (Relation.ReflTransGen.head hstep3 hreach))
      · simp only [hp, if_true] at htn
        omega

/-- Paused state at the loop check, for concrete evaluation of C5. -/
def pollPausedAtCheck : PollState :=
  { pc := .checkRunning, running := true, stopReturned := false, paused := true,
    record := sampleRecord, writesAfterStop := 0, probesAfterPause := 0 }

theorem C5_witness :
    ∃ t, PollReach pollPausedAtCheck t ∧ t.paused = true ∧
      2 ≤ t.probesAfterPause := by
  obtain ⟨t, h1, h2, h3⟩ :=
    C5_no_checkpoint_in_polling_loop pollPausedAtCheck 2 rfl rfl rfl rfl
  have h0 : pollPausedAtCheck.probesAfterPause = 0 := rfl
  exact ⟨t, h1, h2, by omega⟩

end Ipmon
